import Mathlib

/-!
Verification of the virtual-environment manager (`env_manager.py`) and the
dotenv credential script (`use_dotenv.py`).

The Python code is orchestration of external effects: filesystem queries,
`subprocess.run` invocations, JSON file writes and `print` calls.  We embed it
as pure functions over an explicit `World` record that supplies the results of
every external query (which paths exist, what each external command returns,
the current timestamp).  Each embedded function returns its Python return
value together with a `List Event` trace recording, in order, every command it
ran, every line it printed and every file it wrote.  Properties about "which
commands were invoked" or "which files were written" are then statements about
the trace.
-/

/-- Result of an external process invocation
(`subprocess.run(..., capture_output=True, text=True)`):
exit status and captured output streams. -/
structure ProcResult where
  returncode : Int
  stdout : String
  stderr : String
  deriving DecidableEq, Repr

/-- The external commands `env_manager.py` invokes through `subprocess.run`:
`[sys.executable, "-m", "venv", path]`, `[pip, "install", "--upgrade", "pip"]`
and `[pip, "install", dep]`. -/
inductive Cmd where
  | venvCreate (path : String)
  | pipUpgrade (pip : String)
  | pipInstall (pip : String) (dep : String)
  deriving DecidableEq, Repr

/-- A JSON value, as far as this program needs one: the config documents it
writes and reads contain only strings, arrays of strings and one flat object. -/
inductive JsonVal where
  | str (s : String)
  | arr (elems : List JsonVal)
  | obj (fields : List (String × JsonVal))
  deriving Repr

/-- One observable effect of running the program: an external command run
(`subprocess.run`), a printed line (`print`), or a file written
(`open(path, "w")` + `json.dump`, which truncates/overwrites any existing
file at that path). -/
inductive Event where
  | ran (c : Cmd)
  | printed (s : String)
  | wroteFile (path : String) (doc : JsonVal)
  deriving Repr

/-- The external world as the scripts observe it: `PROJECT_ROOT`,
`sys.platform == "win32"`, `os.path.exists`, `os.path.isdir`, `os.listdir`,
the result of each `subprocess.run`, the parsed content `json.load` yields for
a config file path, and `datetime.now().isoformat()`. -/
structure World where
  projectRoot : String
  isWin32 : Bool
  pathExists : String → Bool
  isDir : String → Bool
  listDir : String → List String
  run : Cmd → ProcResult
  readConfig : String → JsonVal
  now : String

/-- `os.path.join` restricted to the POSIX separator.  The spec scopes
platform-specific path string construction out; no claim depends on the
separator character. -/
def pathJoin (a b : String) : String := a ++ "/" ++ b

/-- `VENV_DIR = os.path.join(PROJECT_ROOT, "venvs")`. -/
def venvDir (w : World) : String := pathJoin w.projectRoot "venvs"

/-- `CONFIG_TEMPLATES_DIR = os.path.join(PROJECT_ROOT, "config_templates")`. -/
def configTemplatesDir (w : World) : String := pathJoin w.projectRoot "config_templates"

/-- `venv_path = os.path.join(VENV_DIR, env_name)`. -/
def venvPath (w : World) (envName : String) : String := pathJoin (venvDir w) envName

/-- The pip executable path `install_dependencies` derives from the
environment path (`Scripts/pip.exe` on win32, `bin/pip` otherwise). -/
def pipPath (w : World) (envName : String) : String :=
  if w.isWin32 then pathJoin (pathJoin (venvPath w envName) "Scripts") "pip.exe"
  else pathJoin (pathJoin (venvPath w envName) "bin") "pip"

/-- `config_path = os.path.join(CONFIG_TEMPLATES_DIR, f"{env_name}.json")`. -/
def configPath (w : World) (envName : String) : String :=
  pathJoin (configTemplatesDir w) (envName ++ ".json")

/-- `create_venv(env_name)`: refuse if the target path exists, otherwise run
the external environment-creation command and report its outcome. -/
def create_venv (w : World) (envName : String) : Bool × List Event :=
  let vp := venvPath w envName
  if w.pathExists vp then
    (false, [.printed ("✗ 虚拟环境 " ++ envName ++ " 已存在")])
  else
    let r := w.run (.venvCreate vp)
    if r.returncode ≠ 0 then
      (false, [.printed ("正在创建虚拟环境 " ++ envName ++ "..."),
               .ran (.venvCreate vp),
               .printed ("✗ 创建虚拟环境失败: " ++ r.stderr)])
    else
      (true, [.printed ("正在创建虚拟环境 " ++ envName ++ "..."),
              .ran (.venvCreate vp),
              .printed ("✓ 虚拟环境 " ++ envName ++ " 创建成功")])

/-- The `for dependency in dependencies:` loop of `install_dependencies`:
one `pip install dep` per dependency, in order, returning `False` at the
first non-zero exit status and `True` after the loop completes. -/
def installLoop (w : World) (pip : String) : List String → Bool × List Event
  | [] => (true, [.printed "✓ 所有依赖安装完成"])
  | dep :: rest =>
      let r := w.run (.pipInstall pip dep)
      if r.returncode ≠ 0 then
        (false, [.ran (.pipInstall pip dep),
                 .printed ("✗ 安装依赖 " ++ dep ++ " 失败: " ++ r.stderr)])
      else
        let tail := installLoop w pip rest
        (tail.1, .ran (.pipInstall pip dep) ::
                 .printed ("✓ 安装依赖 " ++ dep ++ " 成功") :: tail.2)

/-- `install_dependencies(env_name, dependencies)`: fail if the environment
path does not exist; otherwise run the pip self-upgrade (result discarded)
and then the per-dependency install loop. -/
def install_dependencies (w : World) (envName : String) (dependencies : List String) :
    Bool × List Event :=
  if w.pathExists (venvPath w envName) then
    let pip := pipPath w envName
    let tail := installLoop w pip dependencies
    (tail.1, .printed ("正在为虚拟环境 " ++ envName ++ " 安装依赖...") ::
             .ran (.pipUpgrade pip) :: tail.2)
  else
    (false, [.printed ("✗ 虚拟环境 " ++ envName ++ " 不存在")])

/-- The four-field JSON document `create_env_config` builds. -/
def configJson (envName : String) (dependencies : List String)
    (description createdAt : String) : JsonVal :=
  .obj [("name", .str envName),
        ("dependencies", .arr (dependencies.map .str)),
        ("description", .str description),
        ("created_at", .str createdAt)]

/-- `create_env_config(env_name, dependencies, description)`: write the JSON
document to the template directory and return the file path.  No filesystem
precondition is checked. -/
def create_env_config (w : World) (envName : String) (dependencies : List String)
    (description : String) : String × List Event :=
  let cp := configPath w envName
  (cp, [.wroteFile cp (configJson envName dependencies description w.now),
        .printed ("✓ 环境配置文件已保存到: " ++ cp)])

/-- Lookup of a key in a JSON object field list (Python `dict` access). -/
def jsonLookup : List (String × JsonVal) → String → Option JsonVal
  | [], _ => none
  | (k, v) :: rest, key => if k = key then some v else jsonLookup rest key

/-- `config.get("description", "无描述")` as `list_envs` uses it on the
parsed config document. -/
def descriptionOf (doc : JsonVal) : String :=
  match doc with
  | .obj fields =>
      match jsonLookup fields "description" with
      | some (.str s) => s
      | _ => "无描述"
  | _ => "无描述"

/-- Reading the `dependencies` field back out of a persisted config document
(as `json.load` hands it to a caller): the field must be an array of strings. -/
def decodeStrings : List JsonVal → Option (List String)
  | [] => some []
  | .str s :: rest =>
      match decodeStrings rest with
      | some l => some (s :: l)
      | none => none
  | _ :: _ => none

/-- Extract the `dependencies` field of a config document as a string list. -/
def readDependencies (doc : JsonVal) : Option (List String) :=
  match doc with
  | .obj fields =>
      match jsonLookup fields "dependencies" with
      | some (.arr elems) => decodeStrings elems
      | _ => none
  | _ => none

/-- The line `"-" * 50` printed as a separator. -/
def dashLine : String := String.mk (List.replicate 50 '-')

/-- One iteration of the `for env in envs:` loop of `list_envs`: a
non-directory entry prints nothing; a directory entry prints exactly one
record line, with the config description when a config file exists and the
fallback text otherwise. -/
def listEntry (w : World) (env : String) : List Event :=
  if w.isDir (venvPath w env) then
    if w.pathExists (configPath w env) then
      [.printed ("✓ " ++ env ++ " - " ++ descriptionOf (w.readConfig (configPath w env)))]
    else
      [.printed ("✓ " ++ env ++ " - 无配置文件")]
  else []

/-- `list_envs()`: early "none yet" return when the storage root is missing or
empty, otherwise a header, one loop iteration per directory entry, and a
footer. -/
def list_envs (w : World) : List Event :=
  if w.pathExists (venvDir w) then
    let envs := w.listDir (venvDir w)
    if envs = [] then
      [.printed "✗ 还没有创建任何虚拟环境"]
    else
      [.printed "\n已创建的虚拟环境:", .printed dashLine] ++
      (envs.map (listEntry w)).flatten ++ [.printed dashLine]
  else
    [.printed "✗ 还没有创建任何虚拟环境"]

/-- The `config` dict `create_env_from_config` consumes (it reads only the
`dependencies` and `description` keys). -/
structure EnvConfig where
  name : String
  dependencies : List String
  description : String

/-- The filesystem after a path has been created: `os.path.exists` now
answers true for that path and is unchanged elsewhere.  This is the state
change a successful external environment creation performs. -/
def mkPath (w : World) (p : String) : World :=
  { w with pathExists := fun q => q == p || w.pathExists q }

/-- `create_env_from_config(env_name, config)`: build the environment, install
its dependencies, and only if both succeeded persist the config file and
print the success banner.  A successful `create_venv` has created the
directory tree at `venv_path`, so the install step runs against the world
updated by `mkPath`: its own `os.path.exists(venv_path)` check sees the path
the creation step just made. -/
def create_env_from_config (w : World) (envName : String) (config : EnvConfig) :
    Bool × List Event :=
  let step1 := create_venv w envName
  if step1.1 then
    let w1 := mkPath w (venvPath w envName)
    let step2 := install_dependencies w1 envName config.dependencies
    if step2.1 then
      let step3 := create_env_config w1 envName config.dependencies config.description
      (true, step1.2 ++ step2.2 ++ step3.2 ++
        [.printed ("\n🎉 虚拟环境 " ++ envName ++ " 创建成功！"),
         .printed ("   描述: " ++ config.description),
         .printed ("   依赖: " ++ String.intercalate ", " config.dependencies)])
    else
      (false, step1.2 ++ step2.2)
  else
    (false, step1.2)

/-- The commands a trace ran, in order. -/
def ranCmds (trace : List Event) : List Cmd :=
  trace.filterMap fun e => match e with | .ran c => some c | _ => none

/-- The dependencies for which a `pip install dep` command was run, in order. -/
def attemptedInstalls (trace : List Event) : List String :=
  trace.filterMap fun e => match e with | .ran (.pipInstall _ d) => some d | _ => none

/-- The pip paths for which a pip self-upgrade command was run, in order. -/
def upgradeRuns (trace : List Event) : List String :=
  trace.filterMap fun e => match e with | .ran (.pipUpgrade p) => some p | _ => none

/-- The files a trace wrote, in order, with the documents written. -/
def filesWritten (trace : List Event) : List (String × JsonVal) :=
  trace.filterMap fun e => match e with | .wroteFile p j => some (p, j) | _ => none

/-- The lines a trace printed, in order. -/
def printedLines (trace : List Event) : List String :=
  trace.filterMap fun e => match e with | .printed s => some s | _ => none

/-- Whether a printed line is a listing record: the `list_envs` loop prints
records as `f"✓ {env} - …"`, and no other line `list_envs` prints starts with
`"✓ "`. -/
def isRecordLine (s : String) : Bool := s.data.take 2 == ['✓', ' ']

/-- The listing records in a trace: printed lines of record shape. -/
def listingRecords (trace : List Event) : List String :=
  (printedLines trace).filter isRecordLine

/-- The placeholder sentinel literal in `use_dotenv.get_api_key`. -/
def PLACEHOLDER : String := "你的实际Hugging_Face_API密钥"

/-- How the Python f-string renders `os.environ.get("HF_API_KEY")`: the value,
or `None` when absent. -/
def showOpt : Option String → String
  | none => "None"
  | some s => s

/-- The test `not api_key or api_key == "你的实际Hugging_Face_API密钥"` on
`api_key = os.environ.get("HF_API_KEY")`: an absent variable is `None`
(falsy), the empty string is falsy, and the placeholder is compared exactly. -/
def keyInvalid : Option String → Bool
  | none => true
  | some s => s == "" || s == PLACEHOLDER

/-- `get_api_key()` over the process environment `env`: reject an absent,
empty or placeholder value with a diagnostic and return `None`; otherwise
return the key. -/
def get_api_key (env : String → Option String) : Option String × List Event :=
  let apiKey := env "HF_API_KEY"
  if keyInvalid apiKey then
    (none, [.printed "✗ 请在.env文件中设置真实的Hugging Face API密钥",
            .printed "   当前.env文件内容:",
            .printed ("   HF_API_KEY=" ++ showOpt apiKey)])
  else
    (apiKey, [.printed "✓ API密钥获取成功"])

/-- The credential-acceptance predicate exactly as the specification words it:
"non-empty and not equal to the fixed known placeholder string
(just the English sentence below)".  Kept separate from `keyInvalid` so the
two definitions can be compared. -/
def specAccepts (value : String) : Bool :=
  value != "" && value != "replace this with your real key"

/-- Concrete filesystem for test worlds: exactly the environment directory
`root/venvs/e1` exists. -/
def fsOne : String → Bool := fun p => p == "root/venvs/e1"

/-- Concrete subprocess oracle: installing the dependency `"bad"` exits 1
with stderr `"boom"`; every other command succeeds. -/
def runScript : Cmd → ProcResult
  | .pipInstall _ dep => if dep == "bad" then ⟨1, "", "boom"⟩ else ⟨0, "", ""⟩
  | _ => ⟨0, "", ""⟩

/-- Like `runScript`, except the pip self-upgrade exits 1. -/
def runScriptUpFail : Cmd → ProcResult
  | .pipInstall _ dep => if dep == "bad" then ⟨1, "", "boom"⟩ else ⟨0, "", ""⟩
  | .pipUpgrade _ => ⟨1, "", "upgrade failed"⟩
  | .venvCreate _ => ⟨0, "", ""⟩

/-- A concrete world: project root `"root"`, POSIX platform, only
`root/venvs/e1` present, `runScript` as subprocess oracle. -/
def w0 : World :=
  { projectRoot := "root", isWin32 := false, pathExists := fsOne,
    isDir := fun _ => false, listDir := fun _ => [], run := runScript,
    readConfig := fun _ => .obj [], now := "2026-01-01T00:00:00" }

/-- `w0` with a failing pip self-upgrade. -/
def w0up : World := { w0 with run := runScriptUpFail }

/-- `w0` with every path reported as existing. -/
def wAllPaths : World := { w0 with pathExists := fun _ => true }

/-- `w0` with no path reported as existing. -/
def wNoPaths : World := { w0 with pathExists := fun _ => false }

/-- A concrete process environment holding exactly the English placeholder
sentence the specification quotes as the placeholder sentinel. -/
def placeholderEnv : String → Option String :=
  fun k => if k == "HF_API_KEY" then some "replace this with your real key" else none

/-! ### Trace bookkeeping lemmas -/

theorem filesWritten_append (t1 t2 : List Event) :
    filesWritten (t1 ++ t2) = filesWritten t1 ++ filesWritten t2 := by
  simp [filesWritten, List.filterMap_append]

theorem listingRecords_append (t1 t2 : List Event) :
    listingRecords (t1 ++ t2) = listingRecords t1 ++ listingRecords t2 := by
  simp [listingRecords, printedLines, List.filterMap_append, List.filter_append]

theorem installLoop_noWrite (w : World) (pip : String) (ds : List String) :
    filesWritten (installLoop w pip ds).2 = [] := by
  induction ds with
  | nil => rfl
  | cons d rest ih =>
    simp only [installLoop]
    split
    · rfl
    · simpa [filesWritten, List.filterMap_cons] using ih

theorem installLoop_noUpgrade (w : World) (pip : String) (ds : List String) :
    upgradeRuns (installLoop w pip ds).2 = [] := by
  induction ds with
  | nil => rfl
  | cons d rest ih =>
    simp only [installLoop]
    split
    · rfl
    · simpa [upgradeRuns, List.filterMap_cons] using ih

theorem installLoop_cmds_are_installs (w : World) (pip : String) (ds : List String) :
    ranCmds (installLoop w pip ds).2 =
      (attemptedInstalls (installLoop w pip ds).2).map (Cmd.pipInstall pip) := by
  induction ds with
  | nil => rfl
  | cons d rest ih =>
    simp only [installLoop]
    split
    · rfl
    · simpa [ranCmds, attemptedInstalls, List.filterMap_cons] using ih

theorem installLoop_congr (w1 w2 : World) (pip : String) (ds : List String)
    (h : ∀ dep, w1.run (.pipInstall pip dep) = w2.run (.pipInstall pip dep)) :
    installLoop w1 pip ds = installLoop w2 pip ds := by
  induction ds with
  | nil => rfl
  | cons d rest ih => simp [installLoop, h d, ih]

theorem create_venv_noWrite (w : World) (envName : String) :
    filesWritten (create_venv w envName).2 = [] := by
  simp only [create_venv]
  split
  · rfl
  · split <;> rfl

theorem install_dependencies_noWrite (w : World) (envName : String) (ds : List String) :
    filesWritten (install_dependencies w envName ds).2 = [] := by
  simp only [install_dependencies]
  split
  · simpa [filesWritten, List.filterMap_cons] using installLoop_noWrite w (pipPath w envName) ds
  · rfl

/-! ### C5: config round trip -/

theorem decodeStrings_map_str (l : List String) :
    decodeStrings (l.map JsonVal.str) = some l := by
  induction l with
  | nil => rfl
  | cons s rest ih => simp [decodeStrings, ih]

/-- C5: the `dependencies` field of the JSON document `create_env_config`
persists, read back, is exactly the input dependency list: same elements,
same order, duplicates retained. -/
theorem create_env_config_roundtrip (w : World) (envName : String)
    (deps : List String) (description : String) :
    ∃ doc, filesWritten (create_env_config w envName deps description).2 =
        [(configPath w envName, doc)] ∧ readDependencies doc = some deps := by
  refine ⟨configJson envName deps description w.now, rfl, ?_⟩
  have h : readDependencies (configJson envName deps description w.now) =
      decodeStrings (deps.map JsonVal.str) := rfl
  rw [h, decodeStrings_map_str]

/-! ### C8: unconditional config write -/

/-- C8: `create_env_config` writes its JSON file unconditionally.  Its entire
behaviour — the returned path and the single four-field document written —
depends only on the project root and the clock: two worlds agreeing on those
but differing arbitrarily in which paths exist (no environment directory, or
an already-present config file to be overwritten) produce identical output. -/
theorem create_env_config_unconditional (w1 w2 : World) (envName : String)
    (deps : List String) (description : String)
    (hroot : w1.projectRoot = w2.projectRoot) (hnow : w1.now = w2.now) :
    create_env_config w1 envName deps description =
      create_env_config w2 envName deps description ∧
    (create_env_config w1 envName deps description).1 = configPath w1 envName ∧
    filesWritten (create_env_config w1 envName deps description).2 =
      [(configPath w1 envName, configJson envName deps description w1.now)] := by
  refine ⟨?_, rfl, rfl⟩
  simp [create_env_config, configPath, configTemplatesDir, hroot, hnow]

theorem create_env_config_unconditional_witness :
    wNoPaths.projectRoot = wAllPaths.projectRoot ∧
    wNoPaths.now = wAllPaths.now ∧
    (create_env_config wNoPaths "e9" ["a==1.0"] "d" =
      create_env_config wAllPaths "e9" ["a==1.0"] "d" ∧
    (create_env_config wNoPaths "e9" ["a==1.0"] "d").1 = configPath wNoPaths "e9" ∧
    filesWritten (create_env_config wNoPaths "e9" ["a==1.0"] "d").2 =
      [(configPath wNoPaths "e9", configJson "e9" ["a==1.0"] "d" wNoPaths.now)]) :=
  ⟨rfl, rfl, create_env_config_unconditional wNoPaths wAllPaths "e9" ["a==1.0"] "d" rfl rfl⟩

/-! ### C4: credential validator -/

/-- C4 counterexample: the claim fixes the placeholder sentinel to the English
sentence "replace this with your real key", but `get_api_key` accepts exactly
that value (its placeholder literal is the Chinese string in the source), so
the claimed "accepts iff non-empty and not the placeholder" equivalence fails
at this concrete input. -/
theorem get_api_key_english_placeholder_accepted :
    (get_api_key placeholderEnv).1 = some "replace this with your real key" ∧
    specAccepts "replace this with your real key" = false := by
  exact ⟨rfl, rfl⟩

/-- C4 (amended: the placeholder sentinel is the source literal
`"你的实际Hugging_Face_API密钥"`): `get_api_key` returns the key iff the
variable is set, non-empty and not that placeholder; it returns `None`
exactly otherwise; and the diagnostic line is printed exactly when the result
is `None`.  The embedding is a total function, so no exception escapes. -/
theorem get_api_key_accepts_iff (env : String → Option String) :
    (∀ v, (get_api_key env).1 = some v ↔
      (env "HF_API_KEY" = some v ∧ v ≠ "" ∧ v ≠ PLACEHOLDER)) ∧
    ((get_api_key env).1 = none ↔
      ¬ ∃ v, env "HF_API_KEY" = some v ∧ v ≠ "" ∧ v ≠ PLACEHOLDER) ∧
    (Event.printed "✗ 请在.env文件中设置真实的Hugging Face API密钥"
        ∈ (get_api_key env).2 ↔ (get_api_key env).1 = none) := by
  cases henv : env "HF_API_KEY" with
  | none => simp [get_api_key, henv, keyInvalid]
  | some s =>
    by_cases h0 : s = ""
    · simp [get_api_key, henv, keyInvalid, h0]
    · by_cases hp : s = PLACEHOLDER
      · simp [get_api_key, henv, keyInvalid, h0, hp]
      · simp [get_api_key, henv, keyInvalid, h0, hp]

/-! ### C3: create_venv on an existing path -/

/-- C3: when the target path already exists, `create_venv` returns failure,
runs no external command at all, writes no file, and prints the
already-exists diagnostic. -/
theorem create_venv_already_exists (w : World) (envName : String)
    (hex : w.pathExists (venvPath w envName) = true) :
    (create_venv w envName).1 = false ∧
    ranCmds (create_venv w envName).2 = [] ∧
    filesWritten (create_venv w envName).2 = [] ∧
    Event.printed ("✗ 虚拟环境 " ++ envName ++ " 已存在") ∈ (create_venv w envName).2 := by
  simp [create_venv, hex, ranCmds, filesWritten]

theorem create_venv_already_exists_witness :
    w0.pathExists (venvPath w0 "e1") = true ∧
    ((create_venv w0 "e1").1 = false ∧
    ranCmds (create_venv w0 "e1").2 = [] ∧
    filesWritten (create_venv w0 "e1").2 = [] ∧
    Event.printed ("✗ 虚拟环境 " ++ "e1" ++ " 已存在") ∈ (create_venv w0 "e1").2) :=
  ⟨by decide, create_venv_already_exists w0 "e1" (by decide)⟩

/-! ### C6: install_dependencies on a missing environment -/

/-- C6: when the environment path does not exist, `install_dependencies`
returns failure immediately with only the missing-environment diagnostic:
no command is run — neither the pip self-upgrade nor any install. -/
theorem install_dependencies_missing_env (w : World) (envName : String)
    (deps : List String)
    (hmiss : w.pathExists (venvPath w envName) = false) :
    (install_dependencies w envName deps).1 = false ∧
    ranCmds (install_dependencies w envName deps).2 = [] ∧
    install_dependencies w envName deps =
      (false, [Event.printed ("✗ 虚拟环境 " ++ envName ++ " 不存在")]) := by
  simp [install_dependencies, hmiss, ranCmds]

theorem install_dependencies_missing_env_witness :
    w0.pathExists (venvPath w0 "e2") = false ∧
    ((install_dependencies w0 "e2" ["a"]).1 = false ∧
    ranCmds (install_dependencies w0 "e2" ["a"]).2 = [] ∧
    install_dependencies w0 "e2" ["a"] =
      (false, [Event.printed ("✗ 虚拟环境 " ++ "e2" ++ " 不存在")])) :=
  ⟨by decide, install_dependencies_missing_env w0 "e2" ["a"] (by decide)⟩

/-! ### C9: empty dependency list -/

/-- C9: on an existing environment, an empty dependency list succeeds after
only the pip self-upgrade: the result is `True`, the only command run is the
self-upgrade, and no install command is run. -/
theorem install_dependencies_empty_list (w : World) (envName : String)
    (hex : w.pathExists (venvPath w envName) = true) :
    (install_dependencies w envName []).1 = true ∧
    ranCmds (install_dependencies w envName []).2 = [Cmd.pipUpgrade (pipPath w envName)] ∧
    attemptedInstalls (install_dependencies w envName []).2 = [] := by
  simp [install_dependencies, hex, installLoop, ranCmds, attemptedInstalls]

theorem install_dependencies_empty_list_witness :
    w0.pathExists (venvPath w0 "e1") = true ∧
    ((install_dependencies w0 "e1" []).1 = true ∧
    ranCmds (install_dependencies w0 "e1" []).2 = [Cmd.pipUpgrade (pipPath w0 "e1")] ∧
    attemptedInstalls (install_dependencies w0 "e1" []).2 = []) :=
  ⟨by decide, install_dependencies_empty_list w0 "e1" (by decide)⟩

/-! ### C7: best-effort pip self-upgrade -/

/-- C7: on an existing environment `install_dependencies` runs the pip
self-upgrade exactly once, before any install command, and its exit status is
irrelevant: two worlds agreeing on the filesystem and on every
`pip install dep` result — but free to disagree on the result of the self-upgrade —
produce identical return values and traces. -/
theorem install_dependencies_upgrade_best_effort (w1 w2 : World)
    (envName : String) (deps : List String)
    (hroot : w1.projectRoot = w2.projectRoot)
    (hwin : w1.isWin32 = w2.isWin32)
    (hfs : w1.pathExists = w2.pathExists)
    (hinst : ∀ pip dep, w1.run (.pipInstall pip dep) = w2.run (.pipInstall pip dep))
    (hex : w1.pathExists (venvPath w1 envName) = true) :
    install_dependencies w1 envName deps = install_dependencies w2 envName deps ∧
    upgradeRuns (install_dependencies w1 envName deps).2 = [pipPath w1 envName] ∧
    ranCmds (install_dependencies w1 envName deps).2 =
      Cmd.pipUpgrade (pipPath w1 envName) ::
        (attemptedInstalls (install_dependencies w1 envName deps).2).map
          (Cmd.pipInstall (pipPath w1 envName)) := by
  have hvp : venvPath w1 envName = venvPath w2 envName := by
    simp [venvPath, venvDir, hroot]
  have hpip : pipPath w1 envName = pipPath w2 envName := by
    simp [pipPath, hvp, hwin]
  have hex2 : w2.pathExists (venvPath w2 envName) = true := by
    rw [← hvp, ← hfs]; exact hex
  have hloop : installLoop w1 (pipPath w1 envName) deps =
      installLoop w2 (pipPath w2 envName) deps := by
    rw [← hpip]
    exact installLoop_congr w1 w2 (pipPath w1 envName) deps (fun dep => hinst _ dep)
  have hloop2 : installLoop w1 (pipPath w2 envName) deps =
      installLoop w2 (pipPath w2 envName) deps := hpip ▸ hloop
  refine ⟨?_, ?_, ?_⟩
  · simp [install_dependencies, hex, hex2, hpip, hloop2]
  · simpa [install_dependencies, hex, upgradeRuns, List.filterMap_cons] using
      installLoop_noUpgrade w1 (pipPath w1 envName) deps
  · simpa [install_dependencies, hex, ranCmds, attemptedInstalls, List.filterMap_cons] using
      installLoop_cmds_are_installs w1 (pipPath w1 envName) deps

theorem install_dependencies_upgrade_best_effort_witness :
    w0.projectRoot = w0up.projectRoot ∧
    w0.isWin32 = w0up.isWin32 ∧
    w0.pathExists = w0up.pathExists ∧
    (∀ pip dep, w0.run (.pipInstall pip dep) = w0up.run (.pipInstall pip dep)) ∧
    w0.pathExists (venvPath w0 "e1") = true ∧
    (install_dependencies w0 "e1" ["a"] = install_dependencies w0up "e1" ["a"] ∧
    upgradeRuns (install_dependencies w0 "e1" ["a"]).2 = [pipPath w0 "e1"] ∧
    ranCmds (install_dependencies w0 "e1" ["a"]).2 =
      Cmd.pipUpgrade (pipPath w0 "e1") ::
        (attemptedInstalls (install_dependencies w0 "e1" ["a"]).2).map
          (Cmd.pipInstall (pipPath w0 "e1"))) :=
  ⟨rfl, rfl, rfl, fun _ _ => rfl, by decide,
    install_dependencies_upgrade_best_effort w0 w0up "e1" ["a"]
      rfl rfl rfl (fun _ _ => rfl) (by decide)⟩

/-! ### C1: fail-fast dependency installation -/

theorem installLoop_failfast (w : World) (pip d : String) (pre post : List String)
    (hpre : ∀ p ∈ pre, (w.run (.pipInstall pip p)).returncode = 0)
    (hd : (w.run (.pipInstall pip d)).returncode ≠ 0) :
    (installLoop w pip (pre ++ d :: post)).1 = false ∧
    attemptedInstalls (installLoop w pip (pre ++ d :: post)).2 = pre ++ [d] ∧
    Event.printed ("✗ 安装依赖 " ++ d ++ " 失败: " ++ (w.run (.pipInstall pip d)).stderr)
      ∈ (installLoop w pip (pre ++ d :: post)).2 ∧
    ∀ p ∈ pre, Event.printed ("✓ 安装依赖 " ++ p ++ " 成功")
      ∈ (installLoop w pip (pre ++ d :: post)).2 := by
  induction pre with
  | nil =>
    simp [installLoop, hd, attemptedInstalls]
  | cons p rest ih =>
    have hp : (w.run (.pipInstall pip p)).returncode = 0 := hpre p (by simp)
    have hrest := ih (fun q hq => hpre q (by simp [hq]))
    simp only [List.cons_append, installLoop, hp, ne_eq, not_true_eq_false,
      if_false, ite_false, not_not]
    refine ⟨hrest.1, ?_, ?_, ?_⟩
    · simpa [attemptedInstalls, List.filterMap_cons] using hrest.2.1
    · exact List.mem_cons_of_mem _ (List.mem_cons_of_mem _ hrest.2.2.1)
    · intro q hq
      rcases List.mem_cons.mp hq with hq | hq
      · subst hq
        exact List.mem_cons_of_mem _ (List.mem_cons_self _ _)
      · exact List.mem_cons_of_mem _ (List.mem_cons_of_mem _ (hrest.2.2.2 q hq))

/-- C1: on an existing environment, given dependencies `pre ++ d :: post`
where every install in `pre` exits 0 and the install of `d` exits non-zero,
`install_dependencies` returns failure, the installs attempted are exactly
`pre ++ [d]` in input order (so nothing after `d` is attempted and nothing is
rolled back), each dependency in `pre` has its success reported, and the
failure of `d` is reported with the captured error stream. -/
theorem install_dependencies_fail_fast (w : World) (envName d : String)
    (pre post : List String)
    (hex : w.pathExists (venvPath w envName) = true)
    (hpre : ∀ p ∈ pre, (w.run (.pipInstall (pipPath w envName) p)).returncode = 0)
    (hd : (w.run (.pipInstall (pipPath w envName) d)).returncode ≠ 0) :
    (install_dependencies w envName (pre ++ d :: post)).1 = false ∧
    attemptedInstalls (install_dependencies w envName (pre ++ d :: post)).2 = pre ++ [d] ∧
    Event.printed ("✗ 安装依赖 " ++ d ++ " 失败: "
        ++ (w.run (.pipInstall (pipPath w envName) d)).stderr)
      ∈ (install_dependencies w envName (pre ++ d :: post)).2 ∧
    ∀ p ∈ pre, Event.printed ("✓ 安装依赖 " ++ p ++ " 成功")
      ∈ (install_dependencies w envName (pre ++ d :: post)).2 := by
  have hloop := installLoop_failfast w (pipPath w envName) d pre post hpre hd
  simp only [install_dependencies, hex, if_true]
  refine ⟨hloop.1, ?_, ?_, ?_⟩
  · simpa [attemptedInstalls, List.filterMap_cons] using hloop.2.1
  · exact List.mem_cons_of_mem _ (List.mem_cons_of_mem _ hloop.2.2.1)
  · intro p hp
    exact List.mem_cons_of_mem _ (List.mem_cons_of_mem _ (hloop.2.2.2 p hp))

theorem install_dependencies_fail_fast_witness :
    w0.pathExists (venvPath w0 "e1") = true ∧
    (∀ p ∈ ["a"], (w0.run (.pipInstall (pipPath w0 "e1") p)).returncode = 0) ∧
    (w0.run (.pipInstall (pipPath w0 "e1") "bad")).returncode ≠ 0 ∧
    ((install_dependencies w0 "e1" (["a"] ++ "bad" :: ["c"])).1 = false ∧
    attemptedInstalls (install_dependencies w0 "e1" (["a"] ++ "bad" :: ["c"])).2 =
      ["a"] ++ ["bad"] ∧
    Event.printed ("✗ 安装依赖 " ++ "bad" ++ " 失败: "
        ++ (w0.run (.pipInstall (pipPath w0 "e1") "bad")).stderr)
      ∈ (install_dependencies w0 "e1" (["a"] ++ "bad" :: ["c"])).2 ∧
    ∀ p ∈ ["a"], Event.printed ("✓ 安装依赖 " ++ p ++ " 成功")
      ∈ (install_dependencies w0 "e1" (["a"] ++ "bad" :: ["c"])).2) :=
  ⟨by decide, by decide, by decide,
    install_dependencies_fail_fast w0 "e1" "bad" ["a"] ["c"]
      (by decide) (by decide) (by decide)⟩

/-! ### C2: config persisted iff both build steps succeed -/

theorem filesWritten_create_env_config (w : World) (envName : String)
    (deps : List String) (description : String) :
    filesWritten (create_env_config w envName deps description).2 =
      [(configPath w envName, configJson envName deps description w.now)] := rfl

theorem filesWritten_printed3 (a b c : String) :
    filesWritten [Event.printed a, Event.printed b, Event.printed c] = [] := rfl

theorem configPath_mkPath (w : World) (p envName : String) :
    configPath (mkPath w p) envName = configPath w envName := rfl

theorem now_mkPath (w : World) (p : String) : (mkPath w p).now = w.now := rfl

/-- C2: `create_env_from_config` returns success exactly when both the
environment-creation step and the dependency-installation step (run against
the post-creation filesystem, where the created path now exists) succeed, and
its trace writes the config file (the four-field document at the config path)
exactly in that case — on any failure, nothing at all is written. -/
theorem create_env_from_config_persists_iff (w : World) (envName : String)
    (config : EnvConfig) :
    (create_env_from_config w envName config).1 =
      ((create_venv w envName).1 &&
        (install_dependencies (mkPath w (venvPath w envName)) envName
          config.dependencies).1) ∧
    filesWritten (create_env_from_config w envName config).2 =
      (if (create_venv w envName).1 &&
            (install_dependencies (mkPath w (venvPath w envName)) envName
              config.dependencies).1
       then [(configPath w envName,
              configJson envName config.dependencies config.description w.now)]
       else []) := by
  by_cases h1 : (create_venv w envName).1 = true
  · by_cases h2 : (install_dependencies (mkPath w (venvPath w envName)) envName
        config.dependencies).1 = true
    · simp [create_env_from_config, h1, h2, filesWritten_append, create_venv_noWrite,
        install_dependencies_noWrite, filesWritten_create_env_config, filesWritten_printed3,
        configPath_mkPath, now_mkPath]
    · simp only [Bool.not_eq_true] at h2
      simp [create_env_from_config, h1, h2, filesWritten_append, create_venv_noWrite,
        install_dependencies_noWrite]
  · simp only [Bool.not_eq_true] at h1
    simp [create_env_from_config, h1, create_venv_noWrite]

theorem create_env_from_config_persists_iff_witness :
    ((create_venv w0 "e2").1 &&
      (install_dependencies (mkPath w0 (venvPath w0 "e2")) "e2"
        (EnvConfig.mk "e2" ["a"] "d").dependencies).1) = true ∧
    ((create_env_from_config w0 "e2" (EnvConfig.mk "e2" ["a"] "d")).1 =
      ((create_venv w0 "e2").1 &&
        (install_dependencies (mkPath w0 (venvPath w0 "e2")) "e2"
          (EnvConfig.mk "e2" ["a"] "d").dependencies).1) ∧
    filesWritten (create_env_from_config w0 "e2" (EnvConfig.mk "e2" ["a"] "d")).2 =
      (if (create_venv w0 "e2").1 &&
            (install_dependencies (mkPath w0 (venvPath w0 "e2")) "e2"
              (EnvConfig.mk "e2" ["a"] "d").dependencies).1
       then [(configPath w0 "e2",
              configJson "e2" (EnvConfig.mk "e2" ["a"] "d").dependencies
                (EnvConfig.mk "e2" ["a"] "d").description w0.now)]
       else [])) :=
  ⟨by decide, create_env_from_config_persists_iff w0 "e2" (EnvConfig.mk "e2" ["a"] "d")⟩

/-! ### C10: listing records -/

theorem isRecordLine_rec1 (e d : String) :
    isRecordLine ("✓ " ++ e ++ " - " ++ d) = true := rfl

theorem isRecordLine_rec2 (e : String) :
    isRecordLine ("✓ " ++ e ++ " - 无配置文件") = true := rfl

theorem isRecordLine_none : isRecordLine "✗ 还没有创建任何虚拟环境" = false := by decide

theorem isRecordLine_header : isRecordLine "\n已创建的虚拟环境:" = false := by decide

theorem isRecordLine_dash : isRecordLine dashLine = false := by decide

theorem listingRecords_listEntry (w : World) (e : String) :
    listingRecords (listEntry w e) =
      if w.isDir (venvPath w e) then
        [if w.pathExists (configPath w e) then
           "✓ " ++ e ++ " - " ++ descriptionOf (w.readConfig (configPath w e))
         else "✓ " ++ e ++ " - 无配置文件"]
      else [] := by
  by_cases hd : w.isDir (venvPath w e)
  · by_cases hc : w.pathExists (configPath w e) <;>
      simp [listEntry, hd, hc, listingRecords, printedLines, isRecordLine_rec1,
        isRecordLine_rec2]
  · simp [listEntry, hd, listingRecords, printedLines]

theorem listingRecords_flatten (w : World) (envs : List String) :
    listingRecords ((envs.map (listEntry w)).flatten) =
      (envs.filter fun e => w.isDir (venvPath w e)).map
        (fun e => if w.pathExists (configPath w e) then
           "✓ " ++ e ++ " - " ++ descriptionOf (w.readConfig (configPath w e))
         else "✓ " ++ e ++ " - 无配置文件") := by
  induction envs with
  | nil => rfl
  | cons e rest ih =>
    by_cases hd : w.isDir (venvPath w e) <;>
      simp [listingRecords_append, ih, List.filter_cons, listingRecords_listEntry, hd]

/-- C10: the records `list_envs` emits are exactly one per directory entry of
the storage root, in listing order: non-directory entries yield no record,
and a directory entry yields its single record whether or not a matching
config file exists (with the config description, or the fallback text). -/
theorem list_envs_records_characterization (w : World) :
    listingRecords (list_envs w) =
      if w.pathExists (venvDir w) then
        ((w.listDir (venvDir w)).filter fun e => w.isDir (venvPath w e)).map
          (fun e => if w.pathExists (configPath w e) then
             "✓ " ++ e ++ " - " ++ descriptionOf (w.readConfig (configPath w e))
           else "✓ " ++ e ++ " - 无配置文件")
      else [] := by
  by_cases hex : w.pathExists (venvDir w)
  · simp only [list_envs, hex, if_true]
    by_cases hempty : w.listDir (venvDir w) = []
    · simp [hempty, listingRecords, printedLines, isRecordLine_none]
    · rw [if_neg hempty, listingRecords_append, listingRecords_append,
        listingRecords_flatten]
      simp [listingRecords, printedLines, isRecordLine_header, isRecordLine_dash]
  · simp [list_envs, hex, listingRecords, printedLines, isRecordLine_none]
